import Mathlib

/-!
# Verification of the outbound mail delivery engine and sieve lookup plugins

Shallow embedding of the repository's code, together with proofs of the
specification's claims about it.

Part I embeds the sieve "lookup" / "lookup_map" plugins from
`crates/smtp/src/scripts/plugins/lookup.rs`.

Part II models the outbound delivery engine (route handling aside): the
connection-time policy gates, the delivery transaction, the outcome
classifier, the retry scheduler and the DSN generator, following the
specification's component design; the engine's own sources are exercised by
`tests/src/smtp/outbound/extensions.rs`.
-/

/-! ## Part I: the sieve runtime values and the lookup plugins -/

/-- Model of the sieve runtime `Variable` value: a string, an integer, or an
array of variables (the scripting engine is an external collaborator; only
these shapes are observed by the plugins). -/
inductive Variable where
  | str (s : String)
  | int (i : Int)
  | array (items : List Variable)

/-- Embedding of `Variable::is_empty`: true for the empty string and the
empty array. -/
def Variable.is_empty : Variable → Bool
  | .str s => s.isEmpty
  | .int _ => false
  | .array l => l.isEmpty

mutual

/-- Embedding of `Variable::to_string`: strings are themselves, integers
print, arrays join their elements. -/
def Variable.toStr : Variable → String
  | .str s => s
  | .int i => toString i
  | .array l => Variable.toStrList l

/-- Join of a list of variables, used by `Variable.toStr` on arrays. -/
def Variable.toStrList : List Variable → String
  | [] => ""
  | [v] => Variable.toStr v
  | v :: rest => Variable.toStr v ++ "\r\n" ++ Variable.toStrList rest

end

/-- Embedding of `impl From<bool> for Variable`: booleans become the
integers 1 / 0. -/
def Variable.ofBool (b : Bool) : Variable :=
  .int (if b then 1 else 0)

/-- Embedding of `Variable::default()`: the empty string. -/
def Variable.defaultVal : Variable := .str ""

/-- A registered lookup backend: `contains` answers membership queries and
`lookup` answers map queries; `none` models the query returning an error. -/
structure Lookup where
  containsFn : Variable → Option Bool
  queryFn : List Variable → Option Variable

/-- The part of `PluginContext` read by `exec` / `exec_map`: the two
arguments and the registry of configured lookups (`ctx.core.sieve.lookup`). -/
structure PluginContext where
  arg0 : Variable
  arg1 : Variable
  lookups : String → Option Lookup

/-- Embedding of `exec` in `lookup.rs`: resolve the lookup id from the first
argument; on an array argument, scan for a non-empty element the lookup
contains; on a non-empty scalar, query it; otherwise (or on unknown id)
return false. A failed `contains` query (`unwrap_or(false)`) counts as
false. -/
def exec (ctx : PluginContext) : Variable :=
  let lookup_id := ctx.arg0.toStr
  match ctx.lookups lookup_id with
  | some lk =>
      Variable.ofBool
        (match ctx.arg1 with
          | .array items =>
              items.any (fun item =>
                !item.is_empty && (lk.containsFn item).getD false)
          | v => if !v.is_empty then (lk.containsFn v).getD false else false)
  | none => Variable.ofBool false

/-- The item list `exec_map` derives from its second argument: an array
contributes all of its elements, a non-empty scalar contributes itself, an
empty scalar contributes nothing. -/
def execMapItems (v : Variable) : List Variable :=
  match v with
  | .array l => l
  | v => if !v.is_empty then [v] else []

/-- Embedding of `exec_map` in `lookup.rs`: when both the lookup id and the
derived item list are non-empty and the id is registered, run the map query,
substituting the default variable on failure (`unwrap_or_default`); in every
other case return the default variable. -/
def exec_map (ctx : PluginContext) : Variable :=
  let lookup_id := ctx.arg0.toStr
  let items := execMapItems ctx.arg1
  if !lookup_id.isEmpty && !items.isEmpty then
    match ctx.lookups lookup_id with
    | some lk => (lk.queryFn items).getD Variable.defaultVal
    | none => Variable.defaultVal
  else
    Variable.defaultVal

/-- The map `Variable.ofBool` distinguishes its two results. -/
theorem Variable.ofBool_inj {a b : Bool} (h : Variable.ofBool a = Variable.ofBool b) :
    a = b := by
  cases a <;> cases b <;> simp_all [Variable.ofBool]

/-- C8: with a registered lookup and an array second argument, `exec`
returns true iff some non-empty element is contained; the result never
depends on what the backend answers for empty elements. -/
theorem exec_array_contains (a0 : Variable) (items : List Variable)
    (reg reg' : String → Option Lookup) (lk lk' : Lookup)
    (hreg : reg a0.toStr = some lk) (hreg' : reg' a0.toStr = some lk')
    (hagree : ∀ v, v.is_empty = false → lk.containsFn v = lk'.containsFn v) :
    (exec ⟨a0, .array items, reg⟩ = Variable.ofBool true ↔
      ∃ item ∈ items, item.is_empty = false ∧ lk.containsFn item = some true)
    ∧ exec ⟨a0, .array items, reg⟩ = exec ⟨a0, .array items, reg'⟩ := by
  constructor
  · rw [exec]
    simp only [hreg]
    constructor
    · intro h
      have hb := Variable.ofBool_inj h
      rw [List.any_eq_true] at hb
      obtain ⟨item, hmem, hitem⟩ := hb
      rw [Bool.and_eq_true, Bool.not_eq_true'] at hitem
      refine ⟨item, hmem, hitem.1, ?_⟩
      cases hc : lk.containsFn item with
      | none => rw [hc] at hitem; simp at hitem
      | some b =>
          rw [hc] at hitem
          simp only [Option.getD_some] at hitem
          rw [hitem.2]
    · rintro ⟨item, hmem, hne, hc⟩
      congr 1
      rw [List.any_eq_true]
      exact ⟨item, hmem, by simp [hne, hc]⟩
  · rw [exec, exec]
    simp only [hreg, hreg']
    congr 1
    induction items with
    | nil => rfl
    | cons v rest ih =>
        simp only [List.any_cons, ih]
        congr 1
        cases hv : v.is_empty with
        | true => simp
        | false => rw [hagree v hv]

/-- A concrete lookup backend for testing: contains exactly the values that
print as "b". -/
def lkB : Lookup := ⟨fun v => some (v.toStr == "b"), fun _ => none⟩

/-- A second concrete backend that agrees with `lkB` on all non-empty
values but answers false (instead of true) on empty ones. -/
def lkB' : Lookup :=
  ⟨fun v => some (!v.is_empty && (v.toStr == "b")), fun _ => none⟩

/-- A registry resolving every id to `lkB`. -/
def regB : String → Option Lookup := fun _ => some lkB

/-- A registry resolving every id to `lkB'`. -/
def regB' : String → Option Lookup := fun _ => some lkB'

/-- Closed instance of `exec_array_contains`: the backend contains "b", so
the scan over ["", "b"] answers true, and changing the backend's answer on
the empty string does not change the result. -/
theorem exec_array_contains_witness :
    (exec ⟨.str "t", .array [.str "", .str "b"], regB⟩ = Variable.ofBool true ↔
      ∃ item ∈ [Variable.str "", Variable.str "b"], item.is_empty = false ∧
        lkB.containsFn item = some true)
    ∧ exec ⟨.str "t", .array [.str "", .str "b"], regB⟩ =
      exec ⟨.str "t", .array [.str "", .str "b"], regB'⟩ :=
  exec_array_contains (.str "t") [.str "", .str "b"] regB regB' lkB lkB'
    rfl rfl (by intro v hv; simp [lkB, lkB', hv])

/-- C9: `exec` always returns a boolean variable, and answers false when the
lookup id is unregistered, when the (scalar) queried argument is empty, and
when every backend query fails. -/
theorem exec_total_boolean (ctx : PluginContext) :
    (∃ b, exec ctx = Variable.ofBool b)
    ∧ (ctx.lookups ctx.arg0.toStr = none → exec ctx = Variable.ofBool false)
    ∧ (∀ lk, ctx.lookups ctx.arg0.toStr = some lk →
        (ctx.arg1.is_empty = true → exec ctx = Variable.ofBool false)
        ∧ (lk.containsFn = (fun _ => none) → exec ctx = Variable.ofBool false)) := by
  refine ⟨?_, ?_, ?_⟩
  · rw [exec]
    cases h : ctx.lookups ctx.arg0.toStr with
    | none => exact ⟨false, rfl⟩
    | some lk =>
        cases ctx.arg1 with
        | array items => exact ⟨_, rfl⟩
        | str s => exact ⟨_, rfl⟩
        | int i => exact ⟨_, rfl⟩
  · intro h
    rw [exec, h]
  · intro lk hlk
    constructor
    · intro hempty
      rw [exec, hlk]
      cases harg : ctx.arg1 with
      | array items =>
          rw [harg] at hempty
          simp only [Variable.is_empty, List.isEmpty_iff] at hempty
          simp [hempty]
      | str s =>
          rw [harg] at hempty
          simp [hempty]
      | int i =>
          rw [harg] at hempty
          simp [Variable.is_empty] at hempty
    · intro hfail
      rw [exec, hlk]
      cases ctx.arg1 with
      | array items =>
          simp only [hfail, Option.getD_none, Bool.and_false]
          induction items with
          | nil => rfl
          | cons v rest ih => simpa using ih
      | str s => simp [hfail]
      | int i => simp [hfail]

/-- Closed instance of `exec_total_boolean`: with an unregistered id the
plugin answers false rather than erroring. -/
theorem exec_total_boolean_witness :
    exec ⟨.str "nope", .str "value", fun _ => none⟩ = Variable.ofBool false :=
  (exec_total_boolean ⟨.str "nope", .str "value", fun _ => none⟩).2.1 rfl

/-- C10: `exec_map` returns the default variable when the lookup id is
empty, when the derived item list is empty, when the id is unregistered, and
when the backend query fails. -/
theorem exec_map_defaults (ctx : PluginContext) :
    (ctx.arg0.toStr.isEmpty = true → exec_map ctx = Variable.defaultVal)
    ∧ ((execMapItems ctx.arg1).isEmpty = true → exec_map ctx = Variable.defaultVal)
    ∧ (ctx.lookups ctx.arg0.toStr = none → exec_map ctx = Variable.defaultVal)
    ∧ (∀ lk, ctx.lookups ctx.arg0.toStr = some lk →
        lk.queryFn (execMapItems ctx.arg1) = none →
        exec_map ctx = Variable.defaultVal) := by
  refine ⟨?_, ?_, ?_, ?_⟩
  · intro h
    rw [exec_map]
    simp [h]
  · intro h
    rw [exec_map]
    simp [h]
  · intro h
    rw [exec_map]
    cases hid : ctx.arg0.toStr.isEmpty with
    | true => simp [hid]
    | false =>
        cases hitems : (execMapItems ctx.arg1).isEmpty with
        | true => simp [hid, hitems]
        | false => simp [hid, hitems, h]
  · intro lk hlk hfail
    rw [exec_map]
    cases hid : ctx.arg0.toStr.isEmpty with
    | true => simp [hid]
    | false =>
        cases hitems : (execMapItems ctx.arg1).isEmpty with
        | true => simp [hid, hitems]
        | false => simp [hid, hitems, hlk, hfail]

/-- Closed instance of `exec_map_defaults`: a registered lookup whose map
query fails still produces the default variable. -/
theorem exec_map_defaults_witness :
    exec_map ⟨.str "m", .str "key",
      fun _ => some ⟨fun _ => some true, fun _ => none⟩⟩ = Variable.defaultVal :=
  (exec_map_defaults ⟨.str "m", .str "key",
    fun _ => some ⟨fun _ => some true, fun _ => none⟩⟩).2.2.2
    ⟨fun _ => some true, fun _ => none⟩ rfl rfl

/-! ## Part II: the outbound delivery engine, modelled from the spec

The engine's sources are not part of this checkout; the definitions below
carry `Modelled from the spec:` doc comments and follow the specification's
component design (§4.2-§4.6) word by word. -/

/-- Modelled from the spec: the per-recipient delivery status of the Retry
Scheduler's state machine (§4.5). -/
inductive Status where
  | queued
  | inProgress
  | pending
  | delivered
  | bounced
deriving DecidableEq, Repr

/-- A structured multi-part (class.subject.detail) status code, as embedded
in protocol responses and reported in DSNs. -/
structure StatusCode where
  cls : Nat
  sub : Nat
  det : Nat
deriving DecidableEq, Repr

/-- The security-policy status reported when mandatory transport security
cannot be satisfied (§4.2). -/
def stsSecurityPolicy : StatusCode := ⟨5, 7, 1⟩

/-- The over-limit status reported when the body exceeds the negotiated
size limit (§4.3; `Status: 5.3.4` in the extensions test). -/
def stsOverLimit : StatusCode := ⟨5, 3, 4⟩

/-- The capability-mismatch status for recipients the peer cannot take
(§4.3). -/
def stsCapabilityMismatch : StatusCode := ⟨5, 6, 7⟩

/-- The "delivery time exceeded" status used when retry would pass expiry
(§4.5). -/
def stsDeliveryTimeExceeded : StatusCode := ⟨4, 4, 7⟩

/-- The generic transient mail-system status synthesized when a temporary
response embeds no structured status (§4.4). -/
def stsDefaultTemporary : StatusCode := ⟨4, 0, 0⟩

/-- The generic permanent mail-system status synthesized when a permanent
response embeds no structured status (§4.4). -/
def stsDefaultPermanent : StatusCode := ⟨5, 0, 0⟩

/-- Modelled from the spec: the Outcome Classifier's result (§4.4) — success,
or a temporary/permanent failure carrying a normalized status code and the
diagnostic text. -/
inductive Outcome where
  | success
  | temporary (st : StatusCode) (text : String)
  | permanent (st : StatusCode) (text : String)
deriving DecidableEq, Repr

/-- Whether an outcome is a success. -/
def Outcome.isSuccess : Outcome → Bool
  | .success => true
  | _ => false

/-- Split a character list on a separator character (the groups between
separators, in order; at least one group). -/
def splitOnChar (sep : Char) : List Char → List (List Char)
  | [] => [[]]
  | c :: rest =>
      if c = sep then [] :: splitOnChar sep rest
      else
        match splitOnChar sep rest with
        | [] => [[c]]
        | g :: gs => (c :: g) :: gs

/-- Read a non-empty all-digit character list as a number. -/
def digitsToNat? (cs : List Char) : Option Nat :=
  if cs.isEmpty then none
  else
    cs.foldl (fun acc c =>
      match acc with
      | none => none
      | some n => if c.isDigit then some (n * 10 + (c.toNat - 48)) else none)
      (some 0)

/-- Parse one whitespace-separated token as a structured status code:
three dot-separated numeric fields whose class is a valid response class
(2-5). -/
def parseStatusToken (tok : List Char) : Option StatusCode :=
  match splitOnChar '.' tok with
  | [a, b, c] =>
      match digitsToNat? a, digitsToNat? b, digitsToNat? c with
      | some x, some y, some z =>
          if 2 ≤ x ∧ x ≤ 5 then some ⟨x, y, z⟩ else none
      | _, _, _ => none
  | _ => none

/-- Modelled from the spec: extraction of the embedded multi-part status
code from the response text (§4.4) — the first whitespace-separated token
that parses as a structured status, if any. -/
def parseStatus (text : String) : Option StatusCode :=
  (splitOnChar ' ' text.toList).findSome? parseStatusToken

/-- Modelled from the spec: the Outcome Classifier (§4.4). The leading
response digit determines the class (2xx/3xx succeed, 4xx temporary, all
other error codes permanent); an embedded structured status is preferred
over the digit-derived default — including its class, when it is itself a
transient (4) or permanent (5) class — and when absent a generic
transient/permanent mail-system status is synthesized. -/
def classify (code : Nat) (text : String) : Outcome :=
  if code / 100 = 2 ∨ code / 100 = 3 then .success
  else
    match parseStatus text with
    | some st =>
        if st.cls = 4 then .temporary st text
        else if st.cls = 5 then .permanent st text
        else if code / 100 = 4 then .temporary st text
        else .permanent st text
    | none =>
        if code / 100 = 4 then .temporary stsDefaultTemporary text
        else .permanent stsDefaultPermanent text

/-- Modelled from the spec: per-recipient notify-preference (§3, §6) —
either "never", or any combination of notify on success / on failure / on
delay (the wire grammar makes NEVER exclusive of the others). -/
inductive NotifyPref where
  | never
  | flags (onSuccess onFailure onDelay : Bool)
deriving DecidableEq, Repr

/-- Modelled from the spec: a recipient (§3) — address, notify-preference,
whether it requires UTF-8 support, current delivery status, attempt count,
next-retry and fixed expiry timestamps, and the status code of the last
classified outcome. -/
structure Recipient where
  addr : String
  notify : NotifyPref
  needsUtf8 : Bool
  status : Status
  attempts : Nat
  nextRetry : Nat
  expires : Nat
  lastStatus : Option StatusCode
deriving DecidableEq, Repr

/-- Modelled from the spec: a message (§3) — immutable body bytes (split
into the header block and the body for DSN content selection), envelope
metadata with the per-message extension flags, and the recipients. -/
structure Message where
  sender : String
  envId : Option String
  retHdrs : Bool
  requireTls : Bool
  utf8 : Bool
  headers : String
  body : String
  recipients : List Recipient
  isDsn : Bool
deriving Repr

/-- Modelled from the spec: the capability set returned by extension
negotiation (§4.2, §6) — message-size limit (if advertised), DSN support,
UTF-8 body support, and transport-security upgrade support. -/
structure Capabilities where
  sizeLimit : Option Nat
  dsn : Bool
  utf8 : Bool
  tlsUpgrade : Bool
deriving Repr

/-- Modelled from the spec: the peer's raw responses to the three phases of
an envelope transaction (§4.3): sender command, each recipient command, and
the body transfer. -/
structure Peer where
  mailFromResp : Nat × String
  rcptResp : String → Nat × String
  dataResp : Nat × String

/-- One item transmitted over the established channel: the sender command
with its per-message parameters (envelope identifier, headers-only DSN
preference, mandatory-transport-security flag, UTF-8 flag — §6), a
recipient command with its notify-preference, or the body bytes. -/
inductive WireItem where
  | mailFrom (sender : String) (envId : Option String)
      (retHdrs requireTls utf8 : Bool)
  | rcptTo (addr : String) (notify : NotifyPref)
  | bodyData (body : String)
deriving DecidableEq, Repr

/-- Modelled from the spec: the envelope transaction of a Delivery Attempt
(§4.3). The sender command, each recipient command and the body are sent in
sequence; a sender rejection fails every recipient in the batch with the
same classified outcome (and the body is never sent); a rejection of an
individual recipient fails only that recipient; the body is sent only when
some recipient was accepted, and a body rejection fails every still-pending
recipient identically. Returns the per-recipient outcomes and the
transcript of transmitted items. -/
def transact (msg : Message) (proceeding : List Recipient) (peer : Peer) :
    List (Recipient × Outcome) × List WireItem :=
  let mfItem := WireItem.mailFrom msg.sender msg.envId msg.retHdrs
    msg.requireTls msg.utf8
  match classify peer.mailFromResp.1 peer.mailFromResp.2 with
  | .success =>
      let rcptItems := proceeding.map (fun r => WireItem.rcptTo r.addr r.notify)
      let rcptOutcomes := proceeding.map (fun r =>
        (r, classify (peer.rcptResp r.addr).1 (peer.rcptResp r.addr).2))
      if rcptOutcomes.all (fun p => !p.2.isSuccess) then
        (rcptOutcomes, mfItem :: rcptItems)
      else
        let dataOutcome := classify peer.dataResp.1 peer.dataResp.2
        (rcptOutcomes.map (fun p =>
          if p.2.isSuccess then (p.1, dataOutcome) else p),
         mfItem :: rcptItems ++ [WireItem.bodyData msg.body])
  | mfFail => (proceeding.map (fun r => (r, mfFail)), [mfItem])

/-- The recipients of a message that are incompatible with the negotiated
capabilities (they need UTF-8 and the peer lacks it) — §4.3. -/
def incompatibleRecipients (caps : Capabilities) (msg : Message) :
    List Recipient :=
  msg.recipients.filter (fun r => r.needsUtf8 && !caps.utf8)

/-- The recipients of a message that proceed with the Delivery Attempt
(§4.3). -/
def proceedingRecipients (caps : Capabilities) (msg : Message) :
    List Recipient :=
  msg.recipients.filter (fun r => !(r.needsUtf8 && !caps.utf8))

/-- Whether the body exceeds the negotiated size limit (§4.3). -/
def exceedsSizeLimit (caps : Capabilities) (msg : Message) : Bool :=
  match caps.sizeLimit with
  | some l => l < msg.body.length
  | none => false

/-- Modelled from the spec: one delivery cycle over an established
connection (§4.2-§4.3). If the message carries the mandatory transport
security flag and the peer does not support or did not successfully
complete the upgrade, the connection is abandoned: every recipient in the
batch receives a permanent failure with the security-policy status and
nothing is transmitted. Otherwise recipients are partitioned against the
negotiated capabilities, the size limit is checked against the body (an
over-limit body fails every proceeding recipient permanently without
transmitting anything), and the envelope transaction runs. -/
def deliverBatch (caps : Capabilities) (tlsDone : Bool) (msg : Message)
    (peer : Peer) : List (Recipient × Outcome) × List WireItem :=
  if msg.requireTls && !(caps.tlsUpgrade && tlsDone) then
    (msg.recipients.map (fun r =>
      (r, .permanent stsSecurityPolicy "mandatory transport security not satisfied")),
     [])
  else if exceedsSizeLimit caps msg then
    ((incompatibleRecipients caps msg).map (fun r =>
        (r, .permanent stsCapabilityMismatch "peer lacks required capability")) ++
      (proceedingRecipients caps msg).map (fun r =>
        (r, .permanent stsOverLimit "message exceeds size limit")),
     [])
  else
    ((incompatibleRecipients caps msg).map (fun r =>
        (r, .permanent stsCapabilityMismatch "peer lacks required capability")) ++
      (transact msg (proceedingRecipients caps msg) peer).1,
     (transact msg (proceedingRecipients caps msg) peer).2)

/-- Modelled from the spec: the Retry Scheduler's step relation on statuses
(§4.5): `Queued -> InProgress -> {Delivered | Pending | Bounced}`, and
`Pending -> InProgress` on the next scheduling cycle; `Delivered` and
`Bounced` are terminal. -/
def schedStep : Status → Status → Bool
  | .queued, .inProgress => true
  | .inProgress, .delivered => true
  | .inProgress, .pending => true
  | .inProgress, .bounced => true
  | .pending, .inProgress => true
  | _, _ => false

/-- One step of the automaton recognizing prefixes of the status language
`Queued InProgress (Pending InProgress)* (Delivered | Bounced)`: state 0
expects `Queued`, state 1 expects `InProgress`, state 2 follows an
`InProgress`, state 3 follows a terminal status. -/
def statusLangNext : Nat → Status → Option Nat
  | 0, .queued => some 1
  | 1, .inProgress => some 2
  | 2, .pending => some 1
  | 2, .delivered => some 3
  | 2, .bounced => some 3
  | _, _ => none

/-- Acceptance of a status sequence by the prefix automaton, from a given
state (every prefix of the language is accepted). -/
def statusLangAccepts : Nat → List Status → Bool
  | _, [] => true
  | q, s :: rest =>
      match statusLangNext q s with
      | some q' => statusLangAccepts q' rest
      | none => false

/-- The automaton state reached right after visiting a status. -/
def stateAfter : Status → Nat
  | .queued => 1
  | .inProgress => 2
  | .pending => 1
  | .delivered => 3
  | .bounced => 3

/-- Every scheduler step moves the automaton from the state after the old
status to the state after the new one. -/
theorem schedStep_statusLang :
    ∀ s t : Status, schedStep s t = true →
      statusLangNext (stateAfter s) t = some (stateAfter t) := by
  intro s t h
  cases s <;> cases t <;> first | rfl | simp [schedStep] at h

/-- A scheduler-step chain starting anywhere is accepted by the automaton
from the state after its head. -/
theorem statusLang_of_chain (rest : List Status) :
    ∀ s : Status, List.Chain' (fun a b => schedStep a b = true) (s :: rest) →
      statusLangAccepts (stateAfter s) rest = true := by
  induction rest with
  | nil => intro s _; rfl
  | cons t rest' ih =>
      intro s h
      rw [List.chain'_cons] at h
      have hn := schedStep_statusLang s t h.1
      simp only [statusLangAccepts, hn]
      exact ih t h.2

/-- C1: every sequence of statuses visited under the scheduler's step
relation, starting at `Queued`, is a prefix of
`Queued InProgress (Pending InProgress)* (Delivered | Bounced)`, and the
step relation never transitions a terminal (`Delivered`/`Bounced`)
recipient. -/
theorem scheduler_trace_in_language (trace : List Status)
    (hhead : trace.head? = some Status.queued ∨ trace = [])
    (hchain : List.Chain' (fun a b => schedStep a b = true) trace) :
    statusLangAccepts 0 trace = true
    ∧ ∀ s t : Status, (s = .delivered ∨ s = .bounced) → schedStep s t = false := by
  constructor
  · cases trace with
    | nil => rfl
    | cons s rest =>
        rcases hhead with h | h
        · simp only [List.head?_cons, Option.some_inj] at h
          subst h
          have hacc := statusLang_of_chain rest .queued hchain
          simpa [statusLangAccepts, statusLangNext, stateAfter] using hacc
        · cases h
  · intro s t hst
    rcases hst with h | h <;> subst h <;> cases t <;> rfl

/-- Closed instance of `scheduler_trace_in_language`: a full lifecycle with
one temporary failure and a final delivery is in the language. -/
theorem scheduler_trace_in_language_witness :
    statusLangAccepts 0
        [Status.queued, .inProgress, .pending, .inProgress, .delivered] = true
    ∧ ∀ s t : Status, (s = .delivered ∨ s = .bounced) → schedStep s t = false :=
  scheduler_trace_in_language
    [.queued, .inProgress, .pending, .inProgress, .delivered]
    (Or.inl rfl) (by simp [List.chain'_cons, schedStep])

/-- Modelled from the spec: the backoff-policy constants are configuration
inputs to the Retry Scheduler (§4.5, §9): a base interval and a maximum
interval bounding the curve. -/
structure RetryConfig where
  baseInterval : Nat
  maxInterval : Nat
deriving Repr

/-- Modelled from the spec: the next-retry delay is computed by exponential
backoff from the attempt count, bounded by the maximum interval (§4.5). -/
def nextRetryDelay (cfg : RetryConfig) (attempts : Nat) : Nat :=
  min (cfg.baseInterval * 2 ^ attempts) cfg.maxInterval

/-- Modelled from the spec: the Retry Scheduler's handling of a temporary
failure (§4.5). The computed retry time is compared against the recipient's
fixed expiry: past expiry the recipient moves directly to `Bounced` with the
"delivery time exceeded" status; otherwise it moves to `Pending` with the
retry timestamp and an incremented attempt count. -/
def onTempFailure (cfg : RetryConfig) (now : Nat) (r : Recipient) : Recipient :=
  let retryAt := now + nextRetryDelay cfg r.attempts
  if r.expires < retryAt then
    { r with status := .bounced, lastStatus := some stsDeliveryTimeExceeded }
  else
    { r with status := .pending, nextRetry := retryAt,
             attempts := r.attempts + 1 }

/-- C3: when the computed next-retry time exceeds the fixed expiry, the
recipient transitions directly to `Bounced` with the delivery-time-exceeded
status and is never placed in `Pending`. -/
theorem tempFailure_past_expiry_bounces (cfg : RetryConfig) (now : Nat)
    (r : Recipient) (h : r.expires < now + nextRetryDelay cfg r.attempts) :
    (onTempFailure cfg now r).status = .bounced
    ∧ (onTempFailure cfg now r).lastStatus = some stsDeliveryTimeExceeded
    ∧ (onTempFailure cfg now r).status ≠ .pending := by
  simp [onTempFailure, h]

/-- Closed instance of `tempFailure_past_expiry_bounces` at a concrete
recipient whose backoff passes its expiry. -/
theorem tempFailure_past_expiry_bounces_witness :
    (onTempFailure ⟨60, 3600⟩ 1000
        ⟨"bill@foobar.org", .never, false, .inProgress, 3, 0, 1200, none⟩).status
      = .bounced
    ∧ (onTempFailure ⟨60, 3600⟩ 1000
        ⟨"bill@foobar.org", .never, false, .inProgress, 3, 0, 1200, none⟩).lastStatus
      = some stsDeliveryTimeExceeded
    ∧ (onTempFailure ⟨60, 3600⟩ 1000
        ⟨"bill@foobar.org", .never, false, .inProgress, 3, 0, 1200, none⟩).status
      ≠ .pending :=
  tempFailure_past_expiry_bounces ⟨60, 3600⟩ 1000
    ⟨"bill@foobar.org", .never, false, .inProgress, 3, 0, 1200, none⟩
    (by decide)

/-- Modelled from the spec: the action keyword of a DSN report section
(§4.6, §6): delivered, failed, or delayed. -/
inductive DsnAction where
  | delivered
  | failed
  | delayed
deriving DecidableEq, Repr

/-- Modelled from the spec: one structured report section of a DSN (§4.6,
§6): final recipient address, action keyword, classified status code, and
the diagnostic text from the last attempt. -/
structure DsnEntry where
  finalRcpt : String
  action : DsnAction
  status : StatusCode
  diagnostic : String
deriving DecidableEq, Repr

/-- Modelled from the spec: the original content a DSN attaches (§4.6):
only the original header block when the message requested headers-only
inclusion, the full original body otherwise. -/
inductive DsnContent where
  | headersOnly (hdrs : String)
  | fullBody (body : String)
deriving DecidableEq, Repr

/-- Modelled from the spec: a generated delivery-status notification (§4.6,
§6): the original envelope identifier, the per-recipient report sections,
the attached content, a synthetic sender, and the non-DSN-eligible tag. -/
structure DsnMessage where
  envId : Option String
  entries : List DsnEntry
  content : DsnContent
  sender : String
  dsnEligible : Bool
deriving Repr

/-- The delivery event reported for one recipient: a successful delivery, a
final bounce, or entry into `Pending` (a delay). -/
inductive DeliveryEvent where
  | delivered (diag : String)
  | failed (st : StatusCode) (diag : String)
  | delayed (st : StatusCode) (diag : String)
deriving DecidableEq, Repr

/-- Modelled from the spec: whether a recipient's notify-preference
includes an event (§4.6): success generates a notification only if "notify
on success" is set; a final bounce generates one unless "notify: never" is
set; a delay only if "notify on delay" is set; "never" suppresses all. -/
def wantsDsnEntry : NotifyPref → DeliveryEvent → Bool
  | .never, _ => false
  | .flags s _ _, .delivered _ => s
  | .flags _ _ _, .failed _ _ => true
  | .flags _ _ d, .delayed _ _ => d

/-- Modelled from the spec: the report section built for one recipient and
event (§4.6): the address, the action keyword matching the event, the
classified status code (a success reports the generic positive 2.0.0), and
the diagnostic text. -/
def mkDsnEntry (r : Recipient) (ev : DeliveryEvent) : DsnEntry :=
  match ev with
  | .delivered diag => ⟨r.addr, .delivered, ⟨2, 0, 0⟩, diag⟩
  | .failed st diag => ⟨r.addr, .failed, st, diag⟩
  | .delayed st diag => ⟨r.addr, .delayed, st, diag⟩

/-- The report sections generated for a list of per-recipient events: one
section per event whose recipient's notify-preference includes it (§4.6). -/
def dsnEntries (events : List (Recipient × DeliveryEvent)) : List DsnEntry :=
  events.filterMap (fun p =>
    if wantsDsnEntry p.1.notify p.2 then some (mkDsnEntry p.1 p.2) else none)

/-- Modelled from the spec: the DSN Generator (§4.6). DSN messages are
themselves never DSN-eligible; when at least one report section is wanted, a
new message is synthesized carrying the original envelope identifier, the
sections, headers-only or full-body content per the original message's
preference, a synthetic sender, and the non-DSN-eligible tag. -/
def maybeGenerateDsn (msg : Message)
    (events : List (Recipient × DeliveryEvent)) : Option DsnMessage :=
  if msg.isDsn then none
  else
    let entries := dsnEntries events
    if entries.isEmpty then none
    else some
      { envId := msg.envId
        entries := entries
        content := if msg.retHdrs then .headersOnly msg.headers
                   else .fullBody msg.body
        sender := ""
        dsnEligible := false }

/-- C5: a recipient whose notify-preference is "never" contributes no DSN
entry regardless of the event (so it alone never causes a DSN message), and
a recipient with "notify on success" set whose delivery succeeds
contributes exactly one entry, with action `delivered` and its own
address. -/
theorem dsn_notify_preferences (msg : Message) (r : Recipient)
    (events : List (Recipient × DeliveryEvent)) :
    (r.notify = .never → ∀ ev,
      dsnEntries ((r, ev) :: events) = dsnEntries events
      ∧ maybeGenerateDsn msg ((r, ev) :: events) = maybeGenerateDsn msg events)
    ∧ (∀ f d diag, r.notify = .flags true f d →
        dsnEntries ((r, .delivered diag) :: events) =
          ⟨r.addr, .delivered, ⟨2, 0, 0⟩, diag⟩ :: dsnEntries events) := by
  constructor
  · intro hnever ev
    have hent : dsnEntries ((r, ev) :: events) = dsnEntries events := by
      simp [dsnEntries, hnever, wantsDsnEntry]
    refine ⟨hent, ?_⟩
    rw [maybeGenerateDsn, maybeGenerateDsn, hent]
  · intro f d diag hflags
    simp [dsnEntries, hflags, wantsDsnEntry, mkDsnEntry]

/-- Closed instance of `dsn_notify_preferences`: a NOTIFY=NEVER recipient
generates nothing even on a bounce, and a NOTIFY=SUCCESS recipient's
delivery yields exactly its `delivered` entry. -/
theorem dsn_notify_preferences_witness :
    (dsnEntries [(⟨"bill@foobar.org", .never, false, .inProgress, 0, 0, 0, none⟩,
        .failed stsOverLimit "552")] = dsnEntries []
      ∧ maybeGenerateDsn
          ⟨"john@test.org", none, false, false, false, "", "", [], false⟩
          [(⟨"bill@foobar.org", .never, false, .inProgress, 0, 0, 0, none⟩,
            .failed stsOverLimit "552")] =
        maybeGenerateDsn
          ⟨"john@test.org", none, false, false, false, "", "", [], false⟩ [])
    ∧ dsnEntries [(⟨"ann@foobar.org", .flags true true false, false,
          .inProgress, 0, 0, 0, none⟩, .delivered "250 ok")] =
        [⟨"ann@foobar.org", .delivered, ⟨2, 0, 0⟩, "250 ok"⟩] := by
  have h := dsn_notify_preferences
    ⟨"john@test.org", none, false, false, false, "", "", [], false⟩
    ⟨"bill@foobar.org", .never, false, .inProgress, 0, 0, 0, none⟩ []
  have h2 := dsn_notify_preferences
    ⟨"john@test.org", none, false, false, false, "", "", [], false⟩
    ⟨"ann@foobar.org", .flags true true false, false, .inProgress, 0, 0, 0, none⟩ []
  exact ⟨h.1 rfl (.failed stsOverLimit "552"),
    h2.2 true false "250 ok" rfl⟩

/-- C2: a message carrying the mandatory-transport-security flag, delivered
to a peer that does not support or did not complete the upgrade, fails
every recipient of the batch permanently with the security-policy status;
nothing at all — in particular no body bytes — is transmitted over the
connection. -/
theorem requireTls_unsatisfied_fails_all (caps : Capabilities)
    (tlsDone : Bool) (msg : Message) (peer : Peer)
    (hflag : msg.requireTls = true)
    (hfail : caps.tlsUpgrade = false ∨ tlsDone = false) :
    (deliverBatch caps tlsDone msg peer).1 =
      msg.recipients.map (fun r =>
        (r, .permanent stsSecurityPolicy
          "mandatory transport security not satisfied"))
    ∧ (deliverBatch caps tlsDone msg peer).2 = []
    ∧ ∀ b, WireItem.bodyData b ∉ (deliverBatch caps tlsDone msg peer).2 := by
  have hcond : (msg.requireTls && !(caps.tlsUpgrade && tlsDone)) = true := by
    rcases hfail with h | h <;> simp [hflag, h]
  rw [deliverBatch, if_pos hcond]
  exact ⟨rfl, rfl, by simp⟩

/-- Closed instance of `requireTls_unsatisfied_fails_all`: a REQUIRETLS
message offered to a peer without the upgrade. -/
theorem requireTls_unsatisfied_fails_all_witness :
    (deliverBatch ⟨some 1500, true, true, false⟩ false
        ⟨"john@test.org", none, false, true, false, "H", "B",
          [⟨"bill@foobar.org", .never, false, .queued, 0, 0, 9, none⟩], false⟩
        ⟨(250, "OK"), fun _ => (250, "OK"), (250, "OK")⟩).1 =
      [⟨"bill@foobar.org", .never, false, .queued, 0, 0, 9, none⟩].map (fun r =>
        (r, .permanent stsSecurityPolicy
          "mandatory transport security not satisfied"))
    ∧ (deliverBatch ⟨some 1500, true, true, false⟩ false
        ⟨"john@test.org", none, false, true, false, "H", "B",
          [⟨"bill@foobar.org", .never, false, .queued, 0, 0, 9, none⟩], false⟩
        ⟨(250, "OK"), fun _ => (250, "OK"), (250, "OK")⟩).2 = []
    ∧ ∀ b, WireItem.bodyData b ∉
        (deliverBatch ⟨some 1500, true, true, false⟩ false
          ⟨"john@test.org", none, false, true, false, "H", "B",
            [⟨"bill@foobar.org", .never, false, .queued, 0, 0, 9, none⟩], false⟩
          ⟨(250, "OK"), fun _ => (250, "OK"), (250, "OK")⟩).2 :=
  requireTls_unsatisfied_fails_all ⟨some 1500, true, true, false⟩ false
    ⟨"john@test.org", none, false, true, false, "H", "B",
      [⟨"bill@foobar.org", .never, false, .queued, 0, 0, 9, none⟩], false⟩
    ⟨(250, "OK"), fun _ => (250, "OK"), (250, "OK")⟩
    rfl (Or.inl rfl)

/-- C4: when the negotiated size limit is smaller than the body (and the
transport-security gate passed), every proceeding recipient fails
permanently with the over-limit status and nothing — in particular no body
bytes — is transmitted over the connection. -/
theorem size_exceeded_fails_proceeding (caps : Capabilities)
    (tlsDone : Bool) (msg : Message) (peer : Peer)
    (hgate : (msg.requireTls && !(caps.tlsUpgrade && tlsDone)) = false)
    (hsize : exceedsSizeLimit caps msg = true) :
    (∀ r ∈ proceedingRecipients caps msg,
      (r, Outcome.permanent stsOverLimit "message exceeds size limit") ∈
        (deliverBatch caps tlsDone msg peer).1)
    ∧ (deliverBatch caps tlsDone msg peer).2 = []
    ∧ ∀ b, WireItem.bodyData b ∉ (deliverBatch caps tlsDone msg peer).2 := by
  have h1 : ¬((msg.requireTls && !(caps.tlsUpgrade && tlsDone)) = true) := by
    simp only [hgate]
    exact Bool.false_ne_true
  rw [deliverBatch, if_neg h1, if_pos hsize]
  refine ⟨?_, rfl, by simp⟩
  intro r hr
  exact List.mem_append_right _ (List.mem_map_of_mem _ hr)

/-- Closed instance of `size_exceeded_fails_proceeding`: a 3-byte body
against a negotiated limit of 2. -/
theorem size_exceeded_fails_proceeding_witness :
    (∀ r ∈ proceedingRecipients ⟨some 2, true, true, true⟩
        ⟨"john@test.org", none, false, false, false, "H", "BIG",
          [⟨"bill@foobar.org", .never, false, .queued, 0, 0, 9, none⟩], false⟩,
      (r, Outcome.permanent stsOverLimit "message exceeds size limit") ∈
        (deliverBatch ⟨some 2, true, true, true⟩ true
          ⟨"john@test.org", none, false, false, false, "H", "BIG",
            [⟨"bill@foobar.org", .never, false, .queued, 0, 0, 9, none⟩], false⟩
          ⟨(250, "OK"), fun _ => (250, "OK"), (250, "OK")⟩).1)
    ∧ (deliverBatch ⟨some 2, true, true, true⟩ true
        ⟨"john@test.org", none, false, false, false, "H", "BIG",
          [⟨"bill@foobar.org", .never, false, .queued, 0, 0, 9, none⟩], false⟩
        ⟨(250, "OK"), fun _ => (250, "OK"), (250, "OK")⟩).2 = []
    ∧ ∀ b, WireItem.bodyData b ∉
        (deliverBatch ⟨some 2, true, true, true⟩ true
          ⟨"john@test.org", none, false, false, false, "H", "BIG",
            [⟨"bill@foobar.org", .never, false, .queued, 0, 0, 9, none⟩], false⟩
          ⟨(250, "OK"), fun _ => (250, "OK"), (250, "OK")⟩).2 :=
  size_exceeded_fails_proceeding ⟨some 2, true, true, true⟩ true
    ⟨"john@test.org", none, false, false, false, "H", "BIG",
      [⟨"bill@foobar.org", .never, false, .queued, 0, 0, 9, none⟩], false⟩
    ⟨(250, "OK"), fun _ => (250, "OK"), (250, "OK")⟩
    rfl rfl

/-- C6: the Outcome Classifier maps responses by leading digit — success
codes (2xx/3xx) to `success`, the client/transient-error range (4xx) to
`temporary`, all other error codes to `permanent` — synthesizing the
generic transient/permanent default status when the text embeds no
structured status, and preferring an embedded structured status, including
its class when it is 4 or 5 and disagrees with the leading digit. -/
theorem classify_digit_and_embedded (code : Nat) (text : String) :
    (code / 100 = 2 ∨ code / 100 = 3 → classify code text = .success)
    ∧ (parseStatus text = none → code / 100 = 4 →
        classify code text = .temporary stsDefaultTemporary text)
    ∧ (parseStatus text = none → ¬(code / 100 = 2 ∨ code / 100 = 3) →
        code / 100 ≠ 4 → classify code text = .permanent stsDefaultPermanent text)
    ∧ (∀ st, parseStatus text = some st → ¬(code / 100 = 2 ∨ code / 100 = 3) →
        (st.cls = 4 → classify code text = .temporary st text)
        ∧ (st.cls = 5 → classify code text = .permanent st text)) := by
  refine ⟨?_, ?_, ?_, ?_⟩
  · intro h
    rw [classify, if_pos h]
  · intro hp h4
    have hns : ¬(code / 100 = 2 ∨ code / 100 = 3) := by omega
    rw [classify, if_neg hns, hp]
    simp [h4]
  · intro hp hns h4
    rw [classify, if_neg hns, hp]
    simp [h4]
  · intro st hp hns
    constructor
    · intro h4
      rw [classify, if_neg hns, hp]
      simp [h4]
    · intro h5
      rw [classify, if_neg hns, hp]
      have h45 : st.cls ≠ 4 := by omega
      simp [h45, h5]

/-- Closed instance of `classify_digit_and_embedded`: a 451 response whose
text embeds the permanent status 5.7.1 classifies as a permanent failure —
the embedded class overrides the transient leading digit. -/
theorem classify_digit_and_embedded_witness :
    StatusCode.cls ⟨5, 7, 1⟩ = 5 ∧
    classify 451 "5.7.1 blocked" =
      .permanent ⟨5, 7, 1⟩ "5.7.1 blocked" :=
  ⟨rfl,
    ((classify_digit_and_embedded 451 "5.7.1 blocked").2.2.2 ⟨5, 7, 1⟩
      (by decide) (by omega)).2 rfl⟩

/-- The delivery event a classified outcome reports right away: success is
a delivery, a temporary failure is entry into `Pending` (a delay), a
permanent failure is a final bounce. -/
def eventOfOutcome : Outcome → DeliveryEvent
  | .success => .delivered "delivered"
  | .temporary st t => .delayed st t
  | .permanent st t => .failed st t

/-- Modelled from the spec: one delivery cycle followed by DSN generation
(§4.3-§4.6): the batch's per-recipient outcomes, the transcript of
transmitted items, and the DSN (if any) the outcomes give rise to. -/
def deliveryCycle (caps : Capabilities) (tlsDone : Bool) (msg : Message)
    (peer : Peer) :
    List (Recipient × Outcome) × List WireItem × Option DsnMessage :=
  ((deliverBatch caps tlsDone msg peer).1,
   (deliverBatch caps tlsDone msg peer).2,
   maybeGenerateDsn msg ((deliverBatch caps tlsDone msg peer).1.map
     (fun p => (p.1, eventOfOutcome p.2))))

/-- Whatever the peer answers, the transaction transmits the sender command
with the message's envelope parameters. -/
theorem transact_mailFrom_mem (msg : Message) (pr : List Recipient)
    (peer : Peer) :
    WireItem.mailFrom msg.sender msg.envId msg.retHdrs msg.requireTls msg.utf8 ∈
      (transact msg pr peer).2 := by
  simp only [transact]
  split
  · split <;> exact List.mem_cons_self _ _
  · exact List.mem_cons_self _ _

/-- C7: a message with envelope identifier "abc123", the headers-only DSN
preference, mandatory transport security and the UTF-8 flag, delivered to a
peer supporting all of them, transmits the sender command carrying all
three flags and the identifier unchanged; and any resulting DSN carries
envelope identifier "abc123" and only header content. -/
theorem envelope_flags_roundtrip (caps : Capabilities) (tlsDone : Bool)
    (msg : Message) (peer : Peer)
    (henv : msg.envId = some "abc123") (hret : msg.retHdrs = true)
    (htls : msg.requireTls = true) (hutf : msg.utf8 = true)
    (hcaptls : caps.tlsUpgrade = true) (hdone : tlsDone = true)
    (_hcaputf : caps.utf8 = true) (_hcapdsn : caps.dsn = true)
    (hsize : exceedsSizeLimit caps msg = false) :
    WireItem.mailFrom msg.sender (some "abc123") true true true ∈
      (deliveryCycle caps tlsDone msg peer).2.1
    ∧ ∀ dsn, (deliveryCycle caps tlsDone msg peer).2.2 = some dsn →
        dsn.envId = some "abc123" ∧ dsn.content = .headersOnly msg.headers := by
  constructor
  · have h1 : ¬((msg.requireTls && !(caps.tlsUpgrade && tlsDone)) = true) := by
      simp [hcaptls, hdone]
    have h2 : ¬(exceedsSizeLimit caps msg = true) := by
      simp only [hsize]
      exact Bool.false_ne_true
    have hm := transact_mailFrom_mem msg (proceedingRecipients caps msg) peer
    rw [henv, hret, htls, hutf] at hm
    show WireItem.mailFrom _ _ _ _ _ ∈ (deliverBatch caps tlsDone msg peer).2
    rw [deliverBatch, if_neg h1, if_neg h2]
    exact hm
  · intro dsn hdsn
    simp only [deliveryCycle, maybeGenerateDsn] at hdsn
    split at hdsn
    · exact absurd hdsn (by simp)
    · split at hdsn
      · exact absurd hdsn (by simp)
      · cases hdsn
        exact ⟨henv, by simp [hret]⟩

/-- Closed instance of `envelope_flags_roundtrip`: a fully supporting peer
that accepts the whole transaction. -/
theorem envelope_flags_roundtrip_witness :
    WireItem.mailFrom "john@test.org" (some "abc123") true true true ∈
      (deliveryCycle ⟨some 1500, true, true, true⟩ true
        ⟨"john@test.org", some "abc123", true, true, true, "H", "B",
          [⟨"bill@foobar.org", .never, false, .queued, 0, 0, 9, none⟩], false⟩
        ⟨(250, "OK"), fun _ => (250, "OK"), (250, "OK")⟩).2.1
    ∧ ∀ dsn, (deliveryCycle ⟨some 1500, true, true, true⟩ true
        ⟨"john@test.org", some "abc123", true, true, true, "H", "B",
          [⟨"bill@foobar.org", .never, false, .queued, 0, 0, 9, none⟩], false⟩
        ⟨(250, "OK"), fun _ => (250, "OK"), (250, "OK")⟩).2.2 = some dsn →
        dsn.envId = some "abc123" ∧ dsn.content = .headersOnly "H" :=
  envelope_flags_roundtrip ⟨some 1500, true, true, true⟩ true
    ⟨"john@test.org", some "abc123", true, true, true, "H", "B",
      [⟨"bill@foobar.org", .never, false, .queued, 0, 0, 9, none⟩], false⟩
    ⟨(250, "OK"), fun _ => (250, "OK"), (250, "OK")⟩
    rfl rfl rfl rfl rfl rfl rfl rfl rfl
